import Mathlib

/-!
# Verification of the reflexxes_controllers Cartesian position controller

Shallow embedding of `reflexxes_position_controllers/src/cartesian_position_controller.cpp`
(`CartesianPositionController`): the per-cycle `update` state machine, the `starting`
seeding, and the target mailbox hand-off. External collaborators (the TRAC-IK inverse
kinematics solver and the Reflexxes `ReflexxesAPI` trajectory generator) are modelled as
oracle function parameters; observable side effects (planner invocations, rate-limited
log emissions, per-joint hardware command writes) are recorded explicitly so that the
theorems can speak about them.

Scalars the controller computes with (positions, velocities, accelerations, times,
tolerances) are embedded as `ℤ`: exact integer arithmetic — the claims under study are
about control flow and data flow, not about floating-point rounding — and fully
kernel-evaluable, so concrete cycles can be settled by `decide`. The stored
`sampling_resolution` constant and the components of a `Pose` (which the controller
core never computes with) remain `ℚ`.
-/

namespace ReflexxesControllers

/-- A Cartesian pose: position and orientation quaternion, as carried by
`geometry_msgs::PoseStamped.pose`. Its internals are never inspected by the
controller core; it is only passed to the kinematics collaborator. -/
structure Pose where
  px : ℚ
  py : ℚ
  pz : ℚ
  qx : ℚ
  qy : ℚ
  qz : ℚ
  qw : ℚ
deriving DecidableEq

/-- `ReflexxesAPI::RML_WORKING`: the trajectory is still being executed. -/
def RML_WORKING : Int := 0

/-- `ReflexxesAPI::RML_FINAL_STATE_REACHED`: the target state has been attained. -/
def RML_FINAL_STATE_REACHED : Int := 1

/-- `RMLPositionFlags::FinalMotionBehaviorEnum`. -/
inductive FinalMotionBehavior where
  | keepTargetVelocity
  | recomputeTrajectory
deriving DecidableEq

/-- `RMLFlags::SyncBehaviorEnum`. -/
inductive SyncBehavior where
  | phaseSynchronizationIfPossible
  | onlyTimeSynchronization
  | onlyPhaseSynchronization
  | noSynchronization
deriving DecidableEq

/-- `RMLPositionFlags`: the two flag fields the controller sets before planning. -/
structure RMLPositionFlags where
  behaviorAfterFinalStateOfMotionIsReached : FinalMotionBehavior
  synchronizationBehavior : SyncBehavior
deriving DecidableEq

/-- `RMLPositionInputParameters` for `n` degrees of freedom: the planner input
vectors the controller fills in before invoking `RMLPosition`. -/
structure RMLInput (n : Nat) where
  currentPosition : Fin n → ℤ
  currentVelocity : Fin n → ℤ
  currentAcceleration : Fin n → ℤ
  maxVelocity : Fin n → ℤ
  maxAcceleration : Fin n → ℤ
  maxJerk : Fin n → ℤ
  targetPosition : Fin n → ℤ
  targetVelocity : Fin n → ℤ
  selection : Fin n → Bool
  minimumSynchronizationTime : ℤ
deriving DecidableEq

/-- The mutable member state of `CartesianPositionController` that the per-cycle
`update` reads and writes. `Plan` is the (opaque) internal trajectory state of the
`ReflexxesAPI` object `rml_`; `newPosition` is `rml_out_->NewPositionVector`. -/
structure ControllerState (n : Nat) (Plan : Type) where
  loopCount : Nat
  decimation : Nat
  samplingResolution : ℚ
  newReference : Bool
  recomputeTrajectory : Bool
  positionTolerances : Fin n → ℤ
  previousJointVelocity : Fin n → ℤ
  currentJointAcceleration : Fin n → ℤ
  commandedPositions : Fin n → ℤ
  currentJointPosition : Fin n → ℤ
  targetJointPosition : Fin n → ℤ
  targetCartPosition : Pose
  trajStartTime : ℤ
  rmlFlags : RMLPositionFlags
  rmlIn : RMLInput n
  planState : Plan
  newPosition : Fin n → ℤ

/-- The external collaborators, as black-box oracles.

* `cartToJnt` is `TRAC_IK::TRAC_IK::CartToJnt(seed, pose, out)`: returns the integer
  return code `rc` (negative on failure) together with the joint-space output vector.
* `rmlPosition` is `ReflexxesAPI::RMLPosition(in, out, flags)`: consumes the current
  internal plan state and the filled-in input parameters, returns the new internal plan
  state and the integer result code.
* `rmlSampleAt` is `ReflexxesAPI::RMLPositionAtAGivenSampleTime(t, out)`: read-only on
  the plan, returns the sampled `NewPositionVector` and the integer result code. -/
structure Collaborators (n : Nat) (Plan : Type) where
  cartToJnt : (Fin n → ℤ) → Pose → Int × (Fin n → ℤ)
  rmlPosition : Plan → RMLInput n → RMLPositionFlags → Plan × Int
  rmlSampleAt : Plan → ℤ → (Fin n → ℤ) × Int

/-- The per-cycle inputs of `update`: the ROS clock `time` and `period`, the measured
joint positions and velocities from the hardware handles, and the latest commanded
Cartesian pose delivered by `trajectory_command_buffer_.readFromRT()`. -/
structure CycleInputs (n : Nat) where
  time : ℤ
  period : ℤ
  jointPosition : Fin n → ℤ
  jointVelocity : Fin n → ℤ
  commandedPose : Pose

/-- Observable side effects of one `update` cycle, in program order:
receipt of a new reference, an `RMLPosition` (re)planning invocation with its input,
a per-joint tolerance warning (`ROS_WARN_STREAM`), the final-state debug message, and
the rate-limited Reflexxes error report (`ROS_ERROR`). -/
inductive Event (n : Nat) where
  | receivedNewReference
  | rmlRecompute (input : RMLInput n)
  | toleranceWarning (joint : Fin n) (trackingError : ℤ) (tolerance : ℤ)
  | finalStateReached
  | reflexxesError (code : Int)
deriving DecidableEq

/-- Whether an event is the rate-limited Reflexxes error report. -/
def Event.isReflexxesError {n : Nat} : Event n → Bool
  | Event.reflexxesError _ => true
  | _ => false

/-- The result of one `update` call: the new member state, the per-joint commands
written to the hardware interface (`none` for a joint that was never written), and
the event log. -/
structure UpdateResult (n : Nat) (Plan : Type) where
  state : ControllerState n Plan
  hwCommands : Fin n → Option ℤ
  events : List (Event n)

/-! ## The stages of `CartesianPositionController::update`, in source order -/

/-- Lines 286-294: consume the edge-triggered `new_reference_` flag; when it was set,
clear it and request a trajectory recomputation. -/
def newReferenceStep {n : Nat} {Plan : Type} (s : ControllerState n Plan) :
    ControllerState n Plan × List (Event n) :=
  if s.newReference then
    ({ s with newReference := false, recomputeTrajectory := true },
     [Event.receivedNewReference])
  else (s, [])

/-- Lines 296-300: derive the per-joint acceleration as the raw velocity delta since
the previous cycle and store the current velocity for the next cycle. -/
def accelerationStep {n : Nat} {Plan : Type} (s : ControllerState n Plan)
    (inp : CycleInputs n) : ControllerState n Plan :=
  { s with
    currentJointAcceleration := fun i => inp.jointVelocity i - s.previousJointVelocity i,
    previousJointVelocity := fun i => inp.jointVelocity i }

/-- Lines 306-351: when `recompute_trajectory_` is set, solve inverse kinematics for
the commanded pose (the return code `rc` of `CartToJnt` is captured but never
examined), fill in the planner input, record the plan start time, set the minimum
synchronization time to twice the period, set the flags, invoke `RMLPosition`, and
clear `recompute_trajectory_`. `replanInput` is the `rml_in_` contents written by
lines 317-337: current state from the hardware reads, target position from the
inverse-kinematics output (used regardless of the solver's return code), target
velocity zero, and minimum synchronization time `(period*2).toSec()`. -/
def replanInput {n : Nat} {Plan : Type} (C : Collaborators n Plan)
    (s : ControllerState n Plan) (inp : CycleInputs n) : RMLInput n :=
  { s.rmlIn with
    currentPosition := fun i => inp.jointPosition i,
    currentVelocity := fun i => inp.jointVelocity i,
    currentAcceleration := fun i => s.currentJointAcceleration i,
    targetPosition := fun i => (C.cartToJnt inp.jointPosition inp.commandedPose).2 i,
    targetVelocity := fun _ => 0,
    selection := fun _ => true,
    minimumSynchronizationTime := inp.period * 2 }

/-- The `RMLPositionFlags` values set on every replanning cycle (lines 341-342). -/
def replanFlags : RMLPositionFlags :=
  { behaviorAfterFinalStateOfMotionIsReached := FinalMotionBehavior.keepTargetVelocity,
    synchronizationBehavior := SyncBehavior.onlyTimeSynchronization }

/-- Lines 306-351: the replanning block. Returns the new state, the `rml_result`
value after this block (dead: it is overwritten by the sampling call on line 354),
and the events. -/
def replanStep {n : Nat} {Plan : Type} (C : Collaborators n Plan)
    (s : ControllerState n Plan) (inp : CycleInputs n) :
    ControllerState n Plan × Int × List (Event n) :=
  if s.recomputeTrajectory then
    let ikOut := C.cartToJnt inp.jointPosition inp.commandedPose
    let rmlIn' : RMLInput n := replanInput C s inp
    let flags' : RMLPositionFlags := replanFlags
    let planOut := C.rmlPosition s.planState rmlIn' flags'
    ({ s with
        currentJointPosition := fun i => inp.jointPosition i,
        targetCartPosition := inp.commandedPose,
        targetJointPosition := fun i => ikOut.2 i,
        rmlIn := rmlIn',
        trajStartTime := inp.time,
        rmlFlags := flags',
        planState := planOut.1,
        recomputeTrajectory := false },
     planOut.2,
     [Event.rmlRecompute rmlIn'])
  else (s, 0, [])

/-- Lines 353-356: sample the active trajectory at `time - traj_start_time_`,
overwriting `rml_out_->NewPositionVector` and `rml_result`. -/
def sampleStep {n : Nat} {Plan : Type} (C : Collaborators n Plan)
    (s : ControllerState n Plan) (inp : CycleInputs n) :
    ControllerState n Plan × Int :=
  let out := C.rmlSampleAt s.planState (inp.time - s.trajStartTime)
  ({ s with newPosition := out.1 }, out.2)

/-- `std::abs`, as the source applies it to the per-joint tracking error on
line 361; executable by case split so that concrete cycles kernel-evaluate. -/
def intAbs (x : ℤ) : ℤ := if x < 0 then -x else x

/-- `intAbs` agrees with the mathematical absolute value. -/
lemma intAbs_eq_abs (x : ℤ) : intAbs x = |x| := by
  unfold intAbs
  rcases lt_or_le x 0 with h | h
  · rw [if_pos h, abs_of_neg h]
  · rw [if_neg (not_lt.mpr h), abs_of_nonneg h]

/-- The joints whose tracking error `std::abs(NewPositionVector[i] - getPosition())`
exceeds `position_tolerances_[i]` this cycle (lines 360-368, loop condition). -/
def violatingJoints {n : Nat} {Plan : Type} (s : ControllerState n Plan)
    (inp : CycleInputs n) : List (Fin n) :=
  (List.finRange n).filter fun i =>
    s.positionTolerances i < intAbs (s.newPosition i - inp.jointPosition i)

/-- Lines 359-368: for every joint out of tolerance, request a recomputation and warn. -/
def toleranceStep {n : Nat} {Plan : Type} (s : ControllerState n Plan)
    (inp : CycleInputs n) : ControllerState n Plan × List (Event n) :=
  ({ s with
      recomputeTrajectory := s.recomputeTrajectory || !(violatingJoints s inp).isEmpty },
   (violatingJoints s inp).map fun i =>
     Event.toleranceWarning i (intAbs (s.newPosition i - inp.jointPosition i))
       (s.positionTolerances i))

/-- Lines 370-395: set the command to the sampled position, then switch on the sample
result: `RML_WORKING` keeps it, `RML_FINAL_STATE_REACHED` additionally requests a
recomputation, and any other code reports the error at the decimated rate and falls
back to commanding the measured position. -/
def commandSelectionStep {n : Nat} {Plan : Type} (s : ControllerState n Plan)
    (inp : CycleInputs n) (rmlResult : Int) :
    ControllerState n Plan × List (Event n) :=
  let s1 := { s with commandedPositions := fun i => s.newPosition i }
  if rmlResult = RML_WORKING then
    (s1, [])
  else if rmlResult = RML_FINAL_STATE_REACHED then
    ({ s1 with recomputeTrajectory := true }, [Event.finalStateReached])
  else
    ({ s1 with commandedPositions := fun i => inp.jointPosition i },
     if s.loopCount % s.decimation = 0 then [Event.reflexxesError rmlResult] else [])

/-- Lines 397-401: write the command of every joint to the hardware interface, one
`setCommand` per joint in index order, starting from an all-unwritten interface. -/
def writeCommands {n : Nat} (cmds : Fin n → ℤ) : Fin n → Option ℤ :=
  (List.finRange n).foldl (fun hw i => Function.update hw i (some (cmds i)))
    (fun _ => none)

/-- `CartesianPositionController::update` (lines 281-437): the whole per-cycle state
machine, ending with the hardware write and the loop-counter increment. -/
def update {n : Nat} {Plan : Type} (C : Collaborators n Plan)
    (s : ControllerState n Plan) (inp : CycleInputs n) : UpdateResult n Plan :=
  let a := newReferenceStep s
  let s1 := accelerationStep a.1 inp
  let b := replanStep C s1 inp
  let c := sampleStep C b.1 inp
  let d := toleranceStep c.1 inp
  let e := commandSelectionStep d.1 inp c.2
  { state := { e.1 with loopCount := e.1.loopCount + 1 },
    hwCommands := writeCommands e.1.commandedPositions,
    events := a.2 ++ b.2.2 ++ d.2 ++ e.2 }

/-! ## Derived observation points inside one cycle -/

/-- The controller state right after the replanning block (line 351): new-reference
flag consumed, acceleration derived, and the plan recomputed when requested. -/
def replannedState {n : Nat} {Plan : Type} (C : Collaborators n Plan)
    (s : ControllerState n Plan) (inp : CycleInputs n) : ControllerState n Plan :=
  (replanStep C (accelerationStep (newReferenceStep s).1 inp) inp).1

/-- The `NewPositionVector` produced by this cycle's sampling call (line 354). -/
def sampledPositionOf {n : Nat} {Plan : Type} (C : Collaborators n Plan)
    (s : ControllerState n Plan) (inp : CycleInputs n) : Fin n → ℤ :=
  (C.rmlSampleAt (replannedState C s inp).planState
    (inp.time - (replannedState C s inp).trajStartTime)).1

/-- The `rml_result` produced by this cycle's sampling call (line 354): the status
value the command-selection switch consumes. -/
def sampleStatusOf {n : Nat} {Plan : Type} (C : Collaborators n Plan)
    (s : ControllerState n Plan) (inp : CycleInputs n) : Int :=
  (C.rmlSampleAt (replannedState C s inp).planState
    (inp.time - (replannedState C s inp).trajStartTime)).2

/-- The controller state just before the command-selection switch (after line 368). -/
def preSwitchState {n : Nat} {Plan : Type} (C : Collaborators n Plan)
    (s : ControllerState n Plan) (inp : CycleInputs n) : ControllerState n Plan :=
  (toleranceStep (sampleStep C (replannedState C s inp) inp).1 inp).1

/-! ## Constructor, `starting`, and the target mailbox -/

/-- The member-initializer list of the `CartesianPositionController` constructor
(lines 61-67): `loop_count_(0), decimation_(10), sampling_resolution_(0.001),
new_reference_(false), recompute_trajectory_(false)`; the remaining members are given
here as explicit parameters since the constructor leaves them to `init`. -/
def ctorState {n : Nat} {Plan : Type} (tol : Fin n → ℤ) (pose0 : Pose)
    (rmlIn0 : RMLInput n) (flags0 : RMLPositionFlags) (plan0 : Plan) :
    ControllerState n Plan :=
  { loopCount := 0,
    decimation := 10,
    samplingResolution := 1 / 1000,
    newReference := false,
    recomputeTrajectory := false,
    positionTolerances := tol,
    previousJointVelocity := fun _ => 0,
    currentJointAcceleration := fun _ => 0,
    commandedPositions := fun _ => 0,
    currentJointPosition := fun _ => 0,
    targetJointPosition := fun _ => 0,
    targetCartPosition := pose0,
    trajStartTime := 0,
    rmlFlags := flags0,
    rmlIn := rmlIn0,
    planState := plan0,
    newPosition := fun _ => 0 }

/-- `CartesianPositionController::starting` (lines 258-279): compute the forward
kinematics of the current measured joint positions, seed the command buffer with that
pose (returned here as the mailbox initialization value), reset the commanded
positions to the measured positions, and set the new-reference flag. -/
def starting {n : Nat} {Plan : Type} (fkJntToCart : (Fin n → ℤ) → Pose)
    (measuredPos : Fin n → ℤ) (s : ControllerState n Plan) :
    ControllerState n Plan × Pose :=
  ({ s with
      commandedPositions := fun i => measuredPos i,
      newReference := true },
   fkJntToCart measuredPos)

/-- `setTrajectoryCommand` (lines 444-452): append a completed write to the mailbox
history and set the new-reference flag. -/
def setTrajectoryCommand {n : Nat} {Plan : Type} (s : ControllerState n Plan)
    (msg : Pose) (writes : List Pose) : ControllerState n Plan × List Pose :=
  ({ s with newReference := true }, writes ++ [msg])

/-- Modelled from the spec: the Cross-Context Target Mailbox
(`realtime_tools::RealtimeBuffer`, whose implementation is not part of this
repository's sources; only its callers `initRT` / `writeFromNonRT` / `readFromRT`
are). Sequential contract: each completed write overwrites the single slot, and
`readLatest` returns the slot's content — the most recent completed write, or the
initialization value when no write has ever occurred. -/
def Mailbox.readLatest (init : Pose) (writes : List Pose) : Pose :=
  writes.foldl (fun _slot w => w) init

/-! ## Structural lemmas about the cycle stages -/

/-- Whether this cycle will enter the replanning block: the flag was already set, or
a new reference arrived and sets it in the new-reference step. -/
def replanRequested {n : Nat} {Plan : Type} (s : ControllerState n Plan) : Bool :=
  s.recomputeTrajectory || s.newReference

lemma newReferenceStep_recompute {n : Nat} {Plan : Type} (s : ControllerState n Plan) :
    (newReferenceStep s).1.recomputeTrajectory = replanRequested s := by
  unfold newReferenceStep replanRequested
  cases hb : s.newReference <;> simp [hb]

lemma newReferenceStep_newReference {n : Nat} {Plan : Type} (s : ControllerState n Plan) :
    (newReferenceStep s).1.newReference = false := by
  unfold newReferenceStep
  cases hb : s.newReference <;> simp [hb]

/-- `update` decomposed into its observation points; definitional. -/
lemma update_decomp {n : Nat} {Plan : Type} (C : Collaborators n Plan)
    (s : ControllerState n Plan) (inp : CycleInputs n) :
    update C s inp =
      { state :=
          { (commandSelectionStep (preSwitchState C s inp) inp (sampleStatusOf C s inp)).1 with
            loopCount :=
              (commandSelectionStep (preSwitchState C s inp) inp
                (sampleStatusOf C s inp)).1.loopCount + 1 },
        hwCommands :=
          writeCommands
            (commandSelectionStep (preSwitchState C s inp) inp
              (sampleStatusOf C s inp)).1.commandedPositions,
        events :=
          (newReferenceStep s).2
            ++ (replanStep C (accelerationStep (newReferenceStep s).1 inp) inp).2.2
            ++ (toleranceStep (sampleStep C (replannedState C s inp) inp).1 inp).2
            ++ (commandSelectionStep (preSwitchState C s inp) inp
                  (sampleStatusOf C s inp)).2 } := rfl

lemma replannedState_recompute {n : Nat} {Plan : Type} (C : Collaborators n Plan)
    (s : ControllerState n Plan) (inp : CycleInputs n) :
    (replannedState C s inp).recomputeTrajectory = false := by
  unfold replannedState replanStep
  split
  · rfl
  · next h =>
      simpa [accelerationStep, newReferenceStep_recompute, replanRequested] using h

lemma replannedState_previousJointVelocity {n : Nat} {Plan : Type}
    (C : Collaborators n Plan) (s : ControllerState n Plan) (inp : CycleInputs n) :
    (replannedState C s inp).previousJointVelocity = fun i => inp.jointVelocity i := by
  unfold replannedState replanStep
  split <;> rfl

lemma replannedState_currentJointAcceleration {n : Nat} {Plan : Type}
    (C : Collaborators n Plan) (s : ControllerState n Plan) (inp : CycleInputs n) :
    (replannedState C s inp).currentJointAcceleration
      = fun i => inp.jointVelocity i - s.previousJointVelocity i := by
  unfold replannedState replanStep
  split <;>
    (simp [accelerationStep, newReferenceStep]
     cases hb : s.newReference <;> simp [hb])

lemma replannedState_positionTolerances {n : Nat} {Plan : Type}
    (C : Collaborators n Plan) (s : ControllerState n Plan) (inp : CycleInputs n) :
    (replannedState C s inp).positionTolerances = s.positionTolerances := by
  unfold replannedState replanStep
  split <;>
    (show (accelerationStep (newReferenceStep s).1 inp).positionTolerances = _
     unfold accelerationStep newReferenceStep
     cases hb : s.newReference <;> simp [hb])

lemma replannedState_loopCount {n : Nat} {Plan : Type}
    (C : Collaborators n Plan) (s : ControllerState n Plan) (inp : CycleInputs n) :
    (replannedState C s inp).loopCount = s.loopCount := by
  unfold replannedState replanStep
  split <;>
    (show (accelerationStep (newReferenceStep s).1 inp).loopCount = _
     unfold accelerationStep newReferenceStep
     cases hb : s.newReference <;> simp [hb])

lemma replannedState_decimation {n : Nat} {Plan : Type}
    (C : Collaborators n Plan) (s : ControllerState n Plan) (inp : CycleInputs n) :
    (replannedState C s inp).decimation = s.decimation := by
  unfold replannedState replanStep
  split <;>
    (show (accelerationStep (newReferenceStep s).1 inp).decimation = _
     unfold accelerationStep newReferenceStep
     cases hb : s.newReference <;> simp [hb])

/-- The joints out of tolerance this cycle, expressed through the cycle observation
points: tolerance is checked against this cycle's sampled position. -/
def sampledViolating {n : Nat} {Plan : Type} (C : Collaborators n Plan)
    (s : ControllerState n Plan) (inp : CycleInputs n) : List (Fin n) :=
  (List.finRange n).filter fun i =>
    s.positionTolerances i < intAbs (sampledPositionOf C s inp i - inp.jointPosition i)

lemma violatingJoints_sample_eq {n : Nat} {Plan : Type} (C : Collaborators n Plan)
    (s : ControllerState n Plan) (inp : CycleInputs n) :
    violatingJoints (sampleStep C (replannedState C s inp) inp).1 inp
      = sampledViolating C s inp := by
  unfold violatingJoints sampledViolating sampleStep sampledPositionOf
  simp [replannedState_positionTolerances]

lemma preSwitchState_recompute {n : Nat} {Plan : Type} (C : Collaborators n Plan)
    (s : ControllerState n Plan) (inp : CycleInputs n) :
    (preSwitchState C s inp).recomputeTrajectory
      = !(sampledViolating C s inp).isEmpty := by
  unfold preSwitchState toleranceStep
  rw [violatingJoints_sample_eq]
  show ((sampleStep C (replannedState C s inp) inp).1.recomputeTrajectory || _) = _
  have hrec : (sampleStep C (replannedState C s inp) inp).1.recomputeTrajectory
      = (replannedState C s inp).recomputeTrajectory := rfl
  rw [hrec, replannedState_recompute]
  simp

lemma preSwitchState_newPosition {n : Nat} {Plan : Type} (C : Collaborators n Plan)
    (s : ControllerState n Plan) (inp : CycleInputs n) :
    (preSwitchState C s inp).newPosition = sampledPositionOf C s inp := rfl

lemma preSwitchState_loopCount {n : Nat} {Plan : Type} (C : Collaborators n Plan)
    (s : ControllerState n Plan) (inp : CycleInputs n) :
    (preSwitchState C s inp).loopCount = s.loopCount := by
  show (replannedState C s inp).loopCount = s.loopCount
  exact replannedState_loopCount C s inp

lemma preSwitchState_decimation {n : Nat} {Plan : Type} (C : Collaborators n Plan)
    (s : ControllerState n Plan) (inp : CycleInputs n) :
    (preSwitchState C s inp).decimation = s.decimation := by
  show (replannedState C s inp).decimation = s.decimation
  exact replannedState_decimation C s inp

lemma preSwitchState_previousJointVelocity {n : Nat} {Plan : Type}
    (C : Collaborators n Plan) (s : ControllerState n Plan) (inp : CycleInputs n) :
    (preSwitchState C s inp).previousJointVelocity = fun i => inp.jointVelocity i := by
  show (replannedState C s inp).previousJointVelocity = _
  exact replannedState_previousJointVelocity C s inp

lemma preSwitchState_currentJointAcceleration {n : Nat} {Plan : Type}
    (C : Collaborators n Plan) (s : ControllerState n Plan) (inp : CycleInputs n) :
    (preSwitchState C s inp).currentJointAcceleration
      = fun i => inp.jointVelocity i - s.previousJointVelocity i := by
  show (replannedState C s inp).currentJointAcceleration = _
  exact replannedState_currentJointAcceleration C s inp

lemma preSwitchState_rmlIn {n : Nat} {Plan : Type} (C : Collaborators n Plan)
    (s : ControllerState n Plan) (inp : CycleInputs n) :
    (preSwitchState C s inp).rmlIn = (replannedState C s inp).rmlIn := rfl

lemma preSwitchState_planState {n : Nat} {Plan : Type} (C : Collaborators n Plan)
    (s : ControllerState n Plan) (inp : CycleInputs n) :
    (preSwitchState C s inp).planState = (replannedState C s inp).planState := rfl

lemma foldl_setCommand_apply {n : Nat} (cmds : Fin n → ℤ) (l : List (Fin n))
    (init : Fin n → Option ℤ) (j : Fin n) :
    (l.foldl (fun hw i => Function.update hw i (some (cmds i))) init) j
      = if j ∈ l then some (cmds j) else init j := by
  induction l generalizing init with
  | nil => simp
  | cons a l ih =>
    simp only [List.foldl_cons, ih, List.mem_cons]
    by_cases hj : j ∈ l
    · simp [hj]
    · by_cases hja : j = a
      · subst hja
        simp [hj, Function.update_same]
      · simp [hj, hja, Function.update_noteq hja]

lemma writeCommands_apply {n : Nat} (cmds : Fin n → ℤ) (j : Fin n) :
    writeCommands cmds j = some (cmds j) := by
  unfold writeCommands
  rw [foldl_setCommand_apply]
  simp [List.mem_finRange]

lemma update_hwCommands_eq {n : Nat} {Plan : Type} (C : Collaborators n Plan)
    (s : ControllerState n Plan) (inp : CycleInputs n) :
    (update C s inp).hwCommands
      = writeCommands (update C s inp).state.commandedPositions := rfl

/-! ## Characterization of the command-selection switch and the final state -/

lemma commandSelectionStep_working {n : Nat} {Plan : Type} (s : ControllerState n Plan)
    (inp : CycleInputs n) (r : Int) (h : r = RML_WORKING) :
    commandSelectionStep s inp r
      = ({ s with commandedPositions := fun i => s.newPosition i }, []) := by
  unfold commandSelectionStep
  simp [h]

lemma commandSelectionStep_final {n : Nat} {Plan : Type} (s : ControllerState n Plan)
    (inp : CycleInputs n) (r : Int) (h : r = RML_FINAL_STATE_REACHED) :
    commandSelectionStep s inp r
      = ({ s with commandedPositions := fun i => s.newPosition i,
                  recomputeTrajectory := true },
         [Event.finalStateReached]) := by
  unfold commandSelectionStep
  simp [h, RML_WORKING, RML_FINAL_STATE_REACHED]

lemma commandSelectionStep_error {n : Nat} {Plan : Type} (s : ControllerState n Plan)
    (inp : CycleInputs n) (r : Int) (h0 : r ≠ RML_WORKING)
    (h1 : r ≠ RML_FINAL_STATE_REACHED) :
    commandSelectionStep s inp r
      = ({ s with commandedPositions := fun i => inp.jointPosition i },
         if s.loopCount % s.decimation = 0 then [Event.reflexxesError r] else []) := by
  unfold commandSelectionStep
  simp [h0, h1]

lemma update_state_loopCount {n : Nat} {Plan : Type} (C : Collaborators n Plan)
    (s : ControllerState n Plan) (inp : CycleInputs n) :
    (update C s inp).state.loopCount = s.loopCount + 1 := by
  rw [update_decomp]
  show (commandSelectionStep (preSwitchState C s inp) inp (sampleStatusOf C s inp)).1.loopCount + 1
      = s.loopCount + 1
  have : (commandSelectionStep (preSwitchState C s inp) inp (sampleStatusOf C s inp)).1.loopCount
      = (preSwitchState C s inp).loopCount := by
    unfold commandSelectionStep
    split
    · rfl
    · split <;> rfl
  rw [this, preSwitchState_loopCount]

lemma update_state_decimation {n : Nat} {Plan : Type} (C : Collaborators n Plan)
    (s : ControllerState n Plan) (inp : CycleInputs n) :
    (update C s inp).state.decimation = s.decimation := by
  rw [update_decomp]
  show (commandSelectionStep (preSwitchState C s inp) inp (sampleStatusOf C s inp)).1.decimation
      = s.decimation
  have : (commandSelectionStep (preSwitchState C s inp) inp (sampleStatusOf C s inp)).1.decimation
      = (preSwitchState C s inp).decimation := by
    unfold commandSelectionStep
    split
    · rfl
    · split <;> rfl
  rw [this, preSwitchState_decimation]

lemma update_state_rmlIn {n : Nat} {Plan : Type} (C : Collaborators n Plan)
    (s : ControllerState n Plan) (inp : CycleInputs n) :
    (update C s inp).state.rmlIn = (replannedState C s inp).rmlIn := by
  rw [update_decomp]
  show (commandSelectionStep (preSwitchState C s inp) inp (sampleStatusOf C s inp)).1.rmlIn = _
  have : (commandSelectionStep (preSwitchState C s inp) inp (sampleStatusOf C s inp)).1.rmlIn
      = (preSwitchState C s inp).rmlIn := by
    unfold commandSelectionStep
    split
    · rfl
    · split <;> rfl
  rw [this, preSwitchState_rmlIn]

lemma update_state_planState {n : Nat} {Plan : Type} (C : Collaborators n Plan)
    (s : ControllerState n Plan) (inp : CycleInputs n) :
    (update C s inp).state.planState = (replannedState C s inp).planState := by
  rw [update_decomp]
  show (commandSelectionStep (preSwitchState C s inp) inp (sampleStatusOf C s inp)).1.planState = _
  have : (commandSelectionStep (preSwitchState C s inp) inp (sampleStatusOf C s inp)).1.planState
      = (preSwitchState C s inp).planState := by
    unfold commandSelectionStep
    split
    · rfl
    · split <;> rfl
  rw [this, preSwitchState_planState]

lemma update_state_previousJointVelocity {n : Nat} {Plan : Type} (C : Collaborators n Plan)
    (s : ControllerState n Plan) (inp : CycleInputs n) :
    (update C s inp).state.previousJointVelocity = fun i => inp.jointVelocity i := by
  rw [update_decomp]
  show (commandSelectionStep (preSwitchState C s inp) inp
        (sampleStatusOf C s inp)).1.previousJointVelocity = _
  have : (commandSelectionStep (preSwitchState C s inp) inp
        (sampleStatusOf C s inp)).1.previousJointVelocity
      = (preSwitchState C s inp).previousJointVelocity := by
    unfold commandSelectionStep
    split
    · rfl
    · split <;> rfl
  rw [this, preSwitchState_previousJointVelocity]

lemma update_state_currentJointAcceleration {n : Nat} {Plan : Type}
    (C : Collaborators n Plan) (s : ControllerState n Plan) (inp : CycleInputs n) :
    (update C s inp).state.currentJointAcceleration
      = fun i => inp.jointVelocity i - s.previousJointVelocity i := by
  rw [update_decomp]
  show (commandSelectionStep (preSwitchState C s inp) inp
        (sampleStatusOf C s inp)).1.currentJointAcceleration = _
  have : (commandSelectionStep (preSwitchState C s inp) inp
        (sampleStatusOf C s inp)).1.currentJointAcceleration
      = (preSwitchState C s inp).currentJointAcceleration := by
    unfold commandSelectionStep
    split
    · rfl
    · split <;> rfl
  rw [this, preSwitchState_currentJointAcceleration]

/-! ## The replanning cycle: what `beginPlan` is invoked with -/

lemma replanStep_taken {n : Nat} {Plan : Type} (C : Collaborators n Plan)
    (s : ControllerState n Plan) (inp : CycleInputs n)
    (h : s.recomputeTrajectory = true) :
    (replanStep C s inp).1
      = { s with
          currentJointPosition := fun i => inp.jointPosition i,
          targetCartPosition := inp.commandedPose,
          targetJointPosition := fun i => (C.cartToJnt inp.jointPosition inp.commandedPose).2 i,
          rmlIn := replanInput C s inp,
          trajStartTime := inp.time,
          rmlFlags := replanFlags,
          planState := (C.rmlPosition s.planState (replanInput C s inp) replanFlags).1,
          recomputeTrajectory := false }
    ∧ (replanStep C s inp).2.2 = [Event.rmlRecompute (replanInput C s inp)] := by
  unfold replanStep
  simp [h]

lemma accelerationStep_recompute {n : Nat} {Plan : Type} (s : ControllerState n Plan)
    (inp : CycleInputs n) :
    (accelerationStep s inp).recomputeTrajectory = s.recomputeTrajectory := rfl

lemma replannedState_rmlIn_of {n : Nat} {Plan : Type} (C : Collaborators n Plan)
    (s : ControllerState n Plan) (inp : CycleInputs n)
    (h : replanRequested s = true) :
    (replannedState C s inp).rmlIn
      = replanInput C (accelerationStep (newReferenceStep s).1 inp) inp := by
  have hrc : (accelerationStep (newReferenceStep s).1 inp).recomputeTrajectory = true := by
    rw [accelerationStep_recompute, newReferenceStep_recompute, h]
  unfold replannedState
  rw [(replanStep_taken C _ inp hrc).1]

lemma replannedState_planState_of {n : Nat} {Plan : Type} (C : Collaborators n Plan)
    (s : ControllerState n Plan) (inp : CycleInputs n)
    (h : replanRequested s = true) :
    (replannedState C s inp).planState
      = (C.rmlPosition (accelerationStep (newReferenceStep s).1 inp).planState
          (replanInput C (accelerationStep (newReferenceStep s).1 inp) inp) replanFlags).1 := by
  have hrc : (accelerationStep (newReferenceStep s).1 inp).recomputeTrajectory = true := by
    rw [accelerationStep_recompute, newReferenceStep_recompute, h]
  unfold replannedState
  rw [(replanStep_taken C _ inp hrc).1]

lemma update_events_decomp {n : Nat} {Plan : Type} (C : Collaborators n Plan)
    (s : ControllerState n Plan) (inp : CycleInputs n) :
    (update C s inp).events
      = (newReferenceStep s).2
          ++ (replanStep C (accelerationStep (newReferenceStep s).1 inp) inp).2.2
          ++ (toleranceStep (sampleStep C (replannedState C s inp) inp).1 inp).2
          ++ (commandSelectionStep (preSwitchState C s inp) inp
                (sampleStatusOf C s inp)).2 := rfl

lemma update_replan_event_of {n : Nat} {Plan : Type} (C : Collaborators n Plan)
    (s : ControllerState n Plan) (inp : CycleInputs n)
    (h : replanRequested s = true) :
    Event.rmlRecompute ((update C s inp).state.rmlIn) ∈ (update C s inp).events := by
  have hrc : (accelerationStep (newReferenceStep s).1 inp).recomputeTrajectory = true := by
    rw [accelerationStep_recompute, newReferenceStep_recompute, h]
  rw [update_events_decomp, (replanStep_taken C _ inp hrc).2, update_state_rmlIn,
    replannedState_rmlIn_of C s inp h]
  simp

/-! ## Command selection and the error diagnostic -/

lemma update_cmd_of_working {n : Nat} {Plan : Type} (C : Collaborators n Plan)
    (s : ControllerState n Plan) (inp : CycleInputs n)
    (h : sampleStatusOf C s inp = RML_WORKING) :
    (update C s inp).state.commandedPositions = fun i => sampledPositionOf C s inp i := by
  rw [update_decomp]
  show (commandSelectionStep (preSwitchState C s inp) inp
    (sampleStatusOf C s inp)).1.commandedPositions = _
  rw [commandSelectionStep_working _ inp _ h]
  show (fun i => (preSwitchState C s inp).newPosition i) = _
  rw [preSwitchState_newPosition]

lemma update_cmd_of_final {n : Nat} {Plan : Type} (C : Collaborators n Plan)
    (s : ControllerState n Plan) (inp : CycleInputs n)
    (h : sampleStatusOf C s inp = RML_FINAL_STATE_REACHED) :
    (update C s inp).state.commandedPositions = fun i => sampledPositionOf C s inp i := by
  rw [update_decomp]
  show (commandSelectionStep (preSwitchState C s inp) inp
    (sampleStatusOf C s inp)).1.commandedPositions = _
  rw [commandSelectionStep_final _ inp _ h]
  show (fun i => (preSwitchState C s inp).newPosition i) = _
  rw [preSwitchState_newPosition]

lemma update_cmd_of_error {n : Nat} {Plan : Type} (C : Collaborators n Plan)
    (s : ControllerState n Plan) (inp : CycleInputs n)
    (h0 : sampleStatusOf C s inp ≠ RML_WORKING)
    (h1 : sampleStatusOf C s inp ≠ RML_FINAL_STATE_REACHED) :
    (update C s inp).state.commandedPositions = fun i => inp.jointPosition i := by
  rw [update_decomp]
  show (commandSelectionStep (preSwitchState C s inp) inp
    (sampleStatusOf C s inp)).1.commandedPositions = _
  rw [commandSelectionStep_error _ inp _ h0 h1]

lemma update_recompute_of_final {n : Nat} {Plan : Type} (C : Collaborators n Plan)
    (s : ControllerState n Plan) (inp : CycleInputs n)
    (h : sampleStatusOf C s inp = RML_FINAL_STATE_REACHED) :
    (update C s inp).state.recomputeTrajectory = true := by
  rw [update_decomp]
  show (commandSelectionStep (preSwitchState C s inp) inp
    (sampleStatusOf C s inp)).1.recomputeTrajectory = true
  rw [commandSelectionStep_final _ inp _ h]

lemma update_recompute_of_working {n : Nat} {Plan : Type} (C : Collaborators n Plan)
    (s : ControllerState n Plan) (inp : CycleInputs n)
    (h : sampleStatusOf C s inp = RML_WORKING) :
    (update C s inp).state.recomputeTrajectory
      = !(sampledViolating C s inp).isEmpty := by
  rw [update_decomp]
  show (commandSelectionStep (preSwitchState C s inp) inp
    (sampleStatusOf C s inp)).1.recomputeTrajectory = _
  rw [commandSelectionStep_working _ inp _ h]
  show (preSwitchState C s inp).recomputeTrajectory = _
  exact preSwitchState_recompute C s inp

lemma update_recompute_of_error {n : Nat} {Plan : Type} (C : Collaborators n Plan)
    (s : ControllerState n Plan) (inp : CycleInputs n)
    (h0 : sampleStatusOf C s inp ≠ RML_WORKING)
    (h1 : sampleStatusOf C s inp ≠ RML_FINAL_STATE_REACHED) :
    (update C s inp).state.recomputeTrajectory
      = !(sampledViolating C s inp).isEmpty := by
  rw [update_decomp]
  show (commandSelectionStep (preSwitchState C s inp) inp
    (sampleStatusOf C s inp)).1.recomputeTrajectory = _
  rw [commandSelectionStep_error _ inp _ h0 h1]
  show (preSwitchState C s inp).recomputeTrajectory = _
  exact preSwitchState_recompute C s inp

/-- The rate-limited error report appears in a cycle's event log exactly when the
sampling call returned an error status and the loop counter is at a decimation
boundary; and the reported code is the sampling status itself. -/
lemma reflexxesError_mem_update_events {n : Nat} {Plan : Type} (C : Collaborators n Plan)
    (s : ControllerState n Plan) (inp : CycleInputs n) (code : Int)
    (hmem : Event.reflexxesError code ∈ (update C s inp).events) :
    s.loopCount % s.decimation = 0
    ∧ code = sampleStatusOf C s inp
    ∧ sampleStatusOf C s inp ≠ RML_WORKING
    ∧ sampleStatusOf C s inp ≠ RML_FINAL_STATE_REACHED := by
  rw [update_events_decomp] at hmem
  simp only [List.mem_append] at hmem
  rcases hmem with ((hmem | hmem) | hmem) | hmem
  · unfold newReferenceStep at hmem
    split at hmem <;> simp at hmem
  · unfold replanStep at hmem
    split at hmem <;> simp at hmem
  · unfold toleranceStep at hmem
    simp at hmem
  · unfold commandSelectionStep at hmem
    split at hmem
    · simp at hmem
    · split at hmem
      · simp at hmem
      · next h0 h1 =>
          split at hmem
          · next hdec =>
              simp at hmem
              rw [preSwitchState_loopCount, preSwitchState_decimation] at hdec
              exact ⟨hdec, hmem, h0, h1⟩
          · simp at hmem

/-! ## Multi-cycle runs: the decimated diagnostic rate -/

/-- The controller state before cycle `k` of a run driven by the per-cycle input
stream `inps`, starting from `s0`. -/
def stateAt {n : Nat} {Plan : Type} (C : Collaborators n Plan)
    (s0 : ControllerState n Plan) (inps : Nat → CycleInputs n) : Nat → ControllerState n Plan
  | 0 => s0
  | k + 1 => (update C (stateAt C s0 inps k) (inps k)).state

/-- Whether cycle `k` of the run emits the Reflexxes error report. -/
def errorEmittedAt {n : Nat} {Plan : Type} (C : Collaborators n Plan)
    (s0 : ControllerState n Plan) (inps : Nat → CycleInputs n) (k : Nat) : Bool :=
  (update C (stateAt C s0 inps k) (inps k)).events.any Event.isReflexxesError

lemma stateAt_loopCount {n : Nat} {Plan : Type} (C : Collaborators n Plan)
    (s0 : ControllerState n Plan) (inps : Nat → CycleInputs n) (k : Nat) :
    (stateAt C s0 inps k).loopCount = s0.loopCount + k := by
  induction k with
  | zero => rfl
  | succ k ih =>
      show (update C (stateAt C s0 inps k) (inps k)).state.loopCount = _
      rw [update_state_loopCount, ih]
      omega

lemma stateAt_decimation {n : Nat} {Plan : Type} (C : Collaborators n Plan)
    (s0 : ControllerState n Plan) (inps : Nat → CycleInputs n) (k : Nat) :
    (stateAt C s0 inps k).decimation = s0.decimation := by
  induction k with
  | zero => rfl
  | succ k ih =>
      show (update C (stateAt C s0 inps k) (inps k)).state.decimation = _
      rw [update_state_decimation, ih]

lemma errorEmittedAt_mod {n : Nat} {Plan : Type} (C : Collaborators n Plan)
    (s0 : ControllerState n Plan) (inps : Nat → CycleInputs n) (k : Nat)
    (h : errorEmittedAt C s0 inps k = true) :
    (s0.loopCount + k) % s0.decimation = 0 := by
  unfold errorEmittedAt at h
  rw [List.any_eq_true] at h
  obtain ⟨e, hmem, he⟩ := h
  cases e with
  | reflexxesError c =>
      have := reflexxesError_mem_update_events C (stateAt C s0 inps k) (inps k) c hmem
      rw [stateAt_loopCount, stateAt_decimation] at this
      exact this.1
  | receivedNewReference => simp [Event.isReflexxesError] at he
  | rmlRecompute i => simp [Event.isReflexxesError] at he
  | toleranceWarning i a b => simp [Event.isReflexxesError] at he
  | finalStateReached => simp [Event.isReflexxesError] at he

/-- Two error-reporting cycles of one run are at least one decimation period apart. -/
lemma errorEmittedAt_spacing {n : Nat} {Plan : Type} (C : Collaborators n Plan)
    (s0 : ControllerState n Plan) (inps : Nat → CycleInputs n) (j k : Nat)
    (hj : errorEmittedAt C s0 inps j = true)
    (hk : errorEmittedAt C s0 inps k = true) (hjk : j < k) :
    j + s0.decimation ≤ k := by
  have h1 := errorEmittedAt_mod C s0 inps j hj
  have h2 := errorEmittedAt_mod C s0 inps k hk
  have hdvd1 : s0.decimation ∣ s0.loopCount + j := Nat.dvd_of_mod_eq_zero h1
  have hdvd2 : s0.decimation ∣ s0.loopCount + k := Nat.dvd_of_mod_eq_zero h2
  have hdvd : s0.decimation ∣ k - j := by
    have := Nat.dvd_sub' hdvd2 hdvd1
    have heq : s0.loopCount + k - (s0.loopCount + j) = k - j := by omega
    rwa [heq] at this
  have hle : s0.decimation ≤ k - j := Nat.le_of_dvd (by omega) hdvd
  omega

/-! ## The tolerance configuration does not influence the emitted command -/

lemma replannedState_setTolerances {n : Nat} {Plan : Type} (C : Collaborators n Plan)
    (s : ControllerState n Plan) (inp : CycleInputs n) (t : Fin n → ℤ) :
    replannedState C { s with positionTolerances := t } inp
      = { replannedState C s inp with positionTolerances := t } := by
  unfold replannedState replanStep accelerationStep newReferenceStep replanInput
  cases hb : s.newReference <;> cases hr : s.recomputeTrajectory <;> simp [hb, hr]

lemma sampleStatusOf_setTolerances {n : Nat} {Plan : Type} (C : Collaborators n Plan)
    (s : ControllerState n Plan) (inp : CycleInputs n) (t : Fin n → ℤ) :
    sampleStatusOf C { s with positionTolerances := t } inp = sampleStatusOf C s inp := by
  unfold sampleStatusOf
  rw [replannedState_setTolerances]

lemma sampledPositionOf_setTolerances {n : Nat} {Plan : Type} (C : Collaborators n Plan)
    (s : ControllerState n Plan) (inp : CycleInputs n) (t : Fin n → ℤ) :
    sampledPositionOf C { s with positionTolerances := t } inp
      = sampledPositionOf C s inp := by
  unfold sampledPositionOf
  rw [replannedState_setTolerances]

lemma update_hw_setTolerances {n : Nat} {Plan : Type} (C : Collaborators n Plan)
    (s : ControllerState n Plan) (inp : CycleInputs n) (t : Fin n → ℤ) :
    (update C { s with positionTolerances := t } inp).hwCommands
      = (update C s inp).hwCommands := by
  rw [update_hwCommands_eq, update_hwCommands_eq]
  by_cases h0 : sampleStatusOf C s inp = RML_WORKING
  · rw [update_cmd_of_working C _ inp (by rw [sampleStatusOf_setTolerances]; exact h0),
      update_cmd_of_working C s inp h0]
    simp [sampledPositionOf_setTolerances]
  · by_cases h1 : sampleStatusOf C s inp = RML_FINAL_STATE_REACHED
    · rw [update_cmd_of_final C _ inp (by rw [sampleStatusOf_setTolerances]; exact h1),
        update_cmd_of_final C s inp h1]
      simp [sampledPositionOf_setTolerances]
    · rw [update_cmd_of_error C _ inp (by rw [sampleStatusOf_setTolerances]; exact h0)
          (by rw [sampleStatusOf_setTolerances]; exact h1),
        update_cmd_of_error C s inp h0 h1]

/-! ## The mailbox slot always holds the most recent completed write -/

lemma foldl_overwrite_mem (a : Pose) (l : List Pose) :
    l.foldl (fun _slot w => w) a ∈ a :: l := by
  induction l generalizing a with
  | nil => simp
  | cons b l ih =>
      simp only [List.foldl_cons]
      have hb := ih b
      simp only [List.mem_cons] at hb ⊢
      tauto

/-! ## Concrete scenarios (one joint, trivial plan state) -/

/-- A neutral pose. -/
def demoPose : Pose := ⟨0, 0, 0, 0, 0, 0, 1⟩

/-- A distinct commanded pose. -/
def demoPose2 : Pose := ⟨1, 2, 3, 0, 0, 0, 1⟩

/-- Planner input limits for the one-joint scenario, as `init` would fill them. -/
def demoRmlIn : RMLInput 1 :=
  { currentPosition := fun _ => 0,
    currentVelocity := fun _ => 0,
    currentAcceleration := fun _ => 0,
    maxVelocity := fun _ => 1,
    maxAcceleration := fun _ => 1,
    maxJerk := fun _ => 1000,
    targetPosition := fun _ => 0,
    targetVelocity := fun _ => 0,
    selection := fun _ => true,
    minimumSynchronizationTime := 0 }

/-- A freshly constructed one-joint controller with position tolerance 1. -/
def demoState : ControllerState 1 Unit :=
  ctorState (fun _ => 1) demoPose demoRmlIn replanFlags ()

/-- One cycle's inputs: robot at rest at zero, unit period, new commanded pose. -/
def demoInputs : CycleInputs 1 :=
  { time := 1,
    period := 3,
    jointPosition := fun _ => 0,
    jointVelocity := fun _ => 0,
    commandedPose := demoPose2 }

/-- Collaborators whose sampling always reports `RML_WORKING` at position 0. -/
def workingCollab : Collaborators 1 Unit :=
  { cartToJnt := fun seed _ => (0, fun i => seed i),
    rmlPosition := fun p _ _ => (p, RML_WORKING),
    rmlSampleAt := fun _ _ => (fun _ => 0, RML_WORKING) }

/-- Collaborators whose sampling reports `RML_FINAL_STATE_REACHED`. -/
def finalCollab : Collaborators 1 Unit :=
  { workingCollab with rmlSampleAt := fun _ _ => (fun _ => 0, RML_FINAL_STATE_REACHED) }

/-- Collaborators whose sampling reports the Reflexxes error code -100. -/
def errorCollab : Collaborators 1 Unit :=
  { workingCollab with rmlSampleAt := fun _ _ => (fun _ => 0, -100) }

/-- Collaborators whose inverse-kinematics solve fails (TRAC-IK returns rc = -3)
while leaving the value 7 in the output vector. -/
def ikFailCollab : Collaborators 1 Unit :=
  { workingCollab with cartToJnt := fun _ _ => (-3, fun _ => 7) }

/-- Collaborators whose sampled position (7) violates the tolerance 1 around the
measured position (0). -/
def violatingCollab : Collaborators 1 Unit :=
  { workingCollab with rmlSampleAt := fun _ _ => (fun _ => 7, RML_WORKING) }

/-- Collaborators identical to `workingCollab` except that plan creation
(`RMLPosition`) reports the error code -102. -/
def planErrCollab : Collaborators 1 Unit :=
  { workingCollab with rmlPosition := fun p _ _ => (p, -102) }

/-- `demoState` with a pending replan request. -/
def c1State : ControllerState 1 Unit := { demoState with recomputeTrajectory := true }

/-- `demoState` right after a new reference arrived. -/
def c5State : ControllerState 1 Unit := { demoState with newReference := true }

/-! ## The claims -/

/-- C1: the claim states that when the replan-request flag is set and the
inverse-kinematics solve fails, the cycle skips replanning and leaves the flag set.
The code instead never examines the `CartToJnt` return code: at this concrete cycle
the solver reports failure (rc = -3), yet `RMLPosition` is still invoked — with the
solver's (invalid) output 7 installed as the target — and `recompute_trajectory_` is
cleared. -/
theorem c1_ik_failure_still_replans_and_clears_flag :
    (ikFailCollab.cartToJnt demoInputs.jointPosition demoInputs.commandedPose).1 = -3
    ∧ (update ikFailCollab c1State demoInputs).state.recomputeTrajectory = false
    ∧ Event.rmlRecompute ((update ikFailCollab c1State demoInputs).state.rmlIn)
        ∈ (update ikFailCollab c1State demoInputs).events
    ∧ (update ikFailCollab c1State demoInputs).state.rmlIn.targetPosition 0 = 7 := by
  refine ⟨rfl, by decide, ?_, by decide⟩
  exact update_replan_event_of ikFailCollab c1State demoInputs (by decide)

/-- C6: on every cycle and axis, the derived acceleration is the raw difference
between the measured velocity and the stored previous velocity (not divided by the
period), and afterwards the stored previous velocity equals the measured velocity. -/
theorem c6_acceleration_is_raw_velocity_delta {n : Nat} {Plan : Type}
    (C : Collaborators n Plan) (s : ControllerState n Plan) (inp : CycleInputs n)
    (i : Fin n) :
    (update C s inp).state.currentJointAcceleration i
        = inp.jointVelocity i - s.previousJointVelocity i
    ∧ (update C s inp).state.previousJointVelocity i = inp.jointVelocity i := by
  constructor
  · rw [update_state_currentJointAcceleration]
  · rw [update_state_previousJointVelocity]

/-- C7: every execution of `update` — whatever the inverse-kinematics outcome, the
planner status, and the tolerance outcome (all quantified via the arbitrary
collaborators, state and inputs) — writes a position command to every joint. -/
theorem c7_every_joint_receives_a_command {n : Nat} {Plan : Type}
    (C : Collaborators n Plan) (s : ControllerState n Plan) (inp : CycleInputs n)
    (i : Fin n) :
    (update C s inp).hwCommands i = some ((update C s inp).state.commandedPositions i)
    ∧ ((update C s inp).hwCommands i).isSome = true := by
  have h := writeCommands_apply (update C s inp).state.commandedPositions i
  rw [update_hwCommands_eq]
  exact ⟨h, by rw [h]; rfl⟩

/-- C3: when the sampling status is Working, every joint's emitted command is the
sampled position; when it is FinalStateReached, the command is likewise the sampled
position and the replan-request flag is set for the next cycle. -/
theorem c3_command_follows_sampled_position {n : Nat} {Plan : Type}
    (C : Collaborators n Plan) (s : ControllerState n Plan) (inp : CycleInputs n) :
    (sampleStatusOf C s inp = RML_WORKING →
      ∀ i, (update C s inp).hwCommands i = some (sampledPositionOf C s inp i))
    ∧ (sampleStatusOf C s inp = RML_FINAL_STATE_REACHED →
      (∀ i, (update C s inp).hwCommands i = some (sampledPositionOf C s inp i))
      ∧ (update C s inp).state.recomputeTrajectory = true) := by
  constructor
  · intro h i
    rw [update_hwCommands_eq, update_cmd_of_working C s inp h, writeCommands_apply]
  · intro h
    refine ⟨fun i => ?_, update_recompute_of_final C s inp h⟩
    rw [update_hwCommands_eq, update_cmd_of_final C s inp h, writeCommands_apply]

/-- Closed instance of C3: a FinalStateReached cycle commands the sampled position on
the one joint and sets the replan-request flag. -/
theorem c3_witness_final_cycle :
    sampleStatusOf finalCollab demoState demoInputs = RML_FINAL_STATE_REACHED
    ∧ (update finalCollab demoState demoInputs).hwCommands 0
        = some (sampledPositionOf finalCollab demoState demoInputs 0)
    ∧ (update finalCollab demoState demoInputs).state.recomputeTrajectory = true :=
  ⟨by decide,
   ((c3_command_follows_sampled_position finalCollab demoState demoInputs).2
     (by decide)).1 0,
   ((c3_command_follows_sampled_position finalCollab demoState demoInputs).2
     (by decide)).2⟩

/-- C10: the mailbox contract (modelled from the spec, since the
`realtime_tools::RealtimeBuffer` implementation is outside this repository's
sources): a read after a completed write of `P` returns `P` or a later write and
never an earlier one; with no writes the read returns the initialization value;
`starting` seeds that initialization value from the forward kinematics of the
measured joint configuration; and `setTrajectoryCommand` appends the written pose to
the completed-write history. -/
theorem c10_mailbox_returns_no_stale_pose {n : Nat} {Plan : Type} (init P : Pose)
    (pre post : List Pose) (fkJntToCart : (Fin n → ℤ) → Pose) (q : Fin n → ℤ)
    (s : ControllerState n Plan) :
    Mailbox.readLatest init (pre ++ P :: post) ∈ P :: post
    ∧ Mailbox.readLatest init [] = init
    ∧ (starting fkJntToCart q s).2 = fkJntToCart q
    ∧ (setTrajectoryCommand s P pre).2 = pre ++ [P] := by
  refine ⟨?_, rfl, rfl, rfl⟩
  unfold Mailbox.readLatest
  rw [List.foldl_append]
  exact foldl_overwrite_mem P post

/-- C4: a tolerance violation on any axis sets the replan-request flag for the next
cycle, while the current cycle's command is unaffected: the command output is
identical under any tolerance configuration, and under a non-error status the
position sampled from the current plan is still issued. -/
theorem c4_tolerance_violation_sets_flag_never_aborts_command {n : Nat} {Plan : Type}
    (C : Collaborators n Plan) (s : ControllerState n Plan) (inp : CycleInputs n)
    (i : Fin n)
    (h : s.positionTolerances i
          < intAbs (sampledPositionOf C s inp i - inp.jointPosition i)) :
    (update C s inp).state.recomputeTrajectory = true
    ∧ (∀ t, (update C { s with positionTolerances := t } inp).hwCommands
          = (update C s inp).hwCommands)
    ∧ (sampleStatusOf C s inp = RML_WORKING ∨
        sampleStatusOf C s inp = RML_FINAL_STATE_REACHED →
        ∀ j, (update C s inp).hwCommands j = some (sampledPositionOf C s inp j)) := by
  have hi : i ∈ sampledViolating C s inp := by
    unfold sampledViolating
    exact List.mem_filter.mpr ⟨List.mem_finRange i, by simpa using h⟩
  have hviol : (!(sampledViolating C s inp).isEmpty) = true := by
    cases hl : sampledViolating C s inp with
    | nil => rw [hl] at hi; cases hi
    | cons a l => rfl
  refine ⟨?_, fun t => update_hw_setTolerances C s inp t, ?_⟩
  · by_cases h1 : sampleStatusOf C s inp = RML_FINAL_STATE_REACHED
    · exact update_recompute_of_final C s inp h1
    · by_cases h0 : sampleStatusOf C s inp = RML_WORKING
      · rw [update_recompute_of_working C s inp h0]; exact hviol
      · rw [update_recompute_of_error C s inp h0 h1]; exact hviol
  · rintro (h0 | h1) j
    · rw [update_hwCommands_eq, update_cmd_of_working C s inp h0, writeCommands_apply]
    · rw [update_hwCommands_eq, update_cmd_of_final C s inp h1, writeCommands_apply]

/-- Closed instance of C4: with the sampled position 7 against measured 0 and
tolerance 1, the flag is set, and the command is the same under tolerance 100. -/
theorem c4_witness_violating_cycle :
    demoState.positionTolerances 0
        < intAbs (sampledPositionOf violatingCollab demoState demoInputs 0
            - demoInputs.jointPosition 0)
    ∧ (update violatingCollab demoState demoInputs).state.recomputeTrajectory = true
    ∧ (update violatingCollab { demoState with positionTolerances := fun _ => 100 }
          demoInputs).hwCommands
        = (update violatingCollab demoState demoInputs).hwCommands :=
  ⟨by decide,
   (c4_tolerance_violation_sets_flag_never_aborts_command violatingCollab demoState
     demoInputs 0 (by decide)).1,
   (c4_tolerance_violation_sets_flag_never_aborts_command violatingCollab demoState
     demoInputs 0 (by decide)).2.1 (fun _ => 100)⟩

/-- C5: every replanning cycle fills the planner input with target velocity zero on
every axis and minimum synchronization time exactly twice the control period, invokes
the planner on exactly that input, and hence — for any duration measure satisfying
the planner's minimum-synchronization-time contract — the new plan lasts at least two
control periods. -/
theorem c5_replan_zero_target_velocity_min_sync_twice_period {n : Nat} {Plan : Type}
    (C : Collaborators n Plan) (s : ControllerState n Plan) (inp : CycleInputs n)
    (h : replanRequested s = true) :
    (∀ i, (update C s inp).state.rmlIn.targetVelocity i = 0)
    ∧ (update C s inp).state.rmlIn.minimumSynchronizationTime = inp.period * 2
    ∧ Event.rmlRecompute ((update C s inp).state.rmlIn) ∈ (update C s inp).events
    ∧ (∀ duration : Plan → ℤ,
        (∀ p rin fl, rin.minimumSynchronizationTime ≤ duration (C.rmlPosition p rin fl).1) →
        inp.period * 2 ≤ duration ((update C s inp).state.planState)) := by
  refine ⟨?_, ?_, update_replan_event_of C s inp h, ?_⟩
  · intro i
    rw [update_state_rmlIn, replannedState_rmlIn_of C s inp h]
    rfl
  · rw [update_state_rmlIn, replannedState_rmlIn_of C s inp h]
    rfl
  · intro duration hcontract
    rw [update_state_planState, replannedState_planState_of C s inp h]
    have hc := hcontract (accelerationStep (newReferenceStep s).1 inp).planState
      (replanInput C (accelerationStep (newReferenceStep s).1 inp) inp) replanFlags
    simpa [replanInput] using hc

/-- Closed instance of C5: a cycle with a freshly arrived reference plans with target
velocity 0 and minimum synchronization time `2 * period = 6`. -/
theorem c5_witness_replan_cycle :
    replanRequested c5State = true
    ∧ (update workingCollab c5State demoInputs).state.rmlIn.targetVelocity 0 = 0
    ∧ (update workingCollab c5State demoInputs).state.rmlIn.minimumSynchronizationTime
        = demoInputs.period * 2 :=
  ⟨by decide,
   (c5_replan_zero_target_velocity_min_sync_twice_period workingCollab c5State
     demoInputs (by decide)).1 0,
   (c5_replan_zero_target_velocity_min_sync_twice_period workingCollab c5State
     demoInputs (by decide)).2.1⟩

/-- C8: on a planner-error cycle, the fallback modifies only the emitted command
(besides the unconditional loop-counter increment): the final state equals the
pre-switch state with the commands replaced by the measured positions, so in
particular a replan-request flag that was set before the fallback remains set. -/
theorem c8_error_fallback_modifies_only_the_command {n : Nat} {Plan : Type}
    (C : Collaborators n Plan) (s : ControllerState n Plan) (inp : CycleInputs n)
    (h0 : sampleStatusOf C s inp ≠ RML_WORKING)
    (h1 : sampleStatusOf C s inp ≠ RML_FINAL_STATE_REACHED) :
    (update C s inp).state
      = { preSwitchState C s inp with
          commandedPositions := fun i => inp.jointPosition i,
          loopCount := (preSwitchState C s inp).loopCount + 1 }
    ∧ ((preSwitchState C s inp).recomputeTrajectory = true →
        (update C s inp).state.recomputeTrajectory = true) := by
  have hstate : (update C s inp).state
      = { preSwitchState C s inp with
          commandedPositions := fun i => inp.jointPosition i,
          loopCount := (preSwitchState C s inp).loopCount + 1 } := by
    rw [update_decomp]
    show { (commandSelectionStep (preSwitchState C s inp) inp
            (sampleStatusOf C s inp)).1 with
           loopCount := (commandSelectionStep (preSwitchState C s inp) inp
            (sampleStatusOf C s inp)).1.loopCount + 1 } = _
    rw [commandSelectionStep_error _ inp _ h0 h1]
  refine ⟨hstate, fun hflag => ?_⟩
  rw [hstate]
  exact hflag

/-- Closed instance of C8: on an error cycle starting with a clean tolerance check,
the final state is exactly the pre-switch state with held commands. -/
theorem c8_witness_error_cycle :
    (sampleStatusOf errorCollab demoState demoInputs ≠ RML_WORKING
      ∧ sampleStatusOf errorCollab demoState demoInputs ≠ RML_FINAL_STATE_REACHED)
    ∧ (update errorCollab demoState demoInputs).state
        = { preSwitchState errorCollab demoState demoInputs with
            commandedPositions := fun i => demoInputs.jointPosition i,
            loopCount := (preSwitchState errorCollab demoState demoInputs).loopCount + 1 } :=
  ⟨⟨by decide, by decide⟩,
   (c8_error_fallback_modifies_only_the_command errorCollab demoState demoInputs
     (by decide) (by decide)).1⟩

/-- C2: on a cycle whose sampling status is an error (neither Working nor
FinalStateReached), every joint's emitted command is its measured position; the error
diagnostic is rate-limited by the `decimation_` member — two diagnostic-emitting
cycles of any run are at least `decimation_` cycles apart, i.e. at most one emission
per `decimation_` consecutive cycles — and the constructor defaults `decimation_`
to 10. -/
theorem c2_error_holds_position_and_rate_limits_diagnostic {n : Nat} {Plan : Type}
    (C : Collaborators n Plan) (s : ControllerState n Plan) (inp : CycleInputs n)
    (s0 : ControllerState n Plan) (inps : Nat → CycleInputs n) (j k : Nat)
    (tol0 : Fin n → ℤ) (p0 : Pose) (rmlIn0 : RMLInput n) (flags0 : RMLPositionFlags)
    (plan0 : Plan)
    (h0 : sampleStatusOf C s inp ≠ RML_WORKING)
    (h1 : sampleStatusOf C s inp ≠ RML_FINAL_STATE_REACHED)
    (hj : errorEmittedAt C s0 inps j = true)
    (hk : errorEmittedAt C s0 inps k = true) (hjk : j < k) :
    (∀ i, (update C s inp).hwCommands i = some (inp.jointPosition i))
    ∧ j + s0.decimation ≤ k
    ∧ (ctorState tol0 p0 rmlIn0 flags0 plan0).decimation = 10 := by
  refine ⟨?_, errorEmittedAt_spacing C s0 inps j k hj hk hjk, rfl⟩
  intro i
  rw [update_hwCommands_eq, update_cmd_of_error C s inp h0 h1, writeCommands_apply]

/-- Closed instance of C2: in a run under a permanently erroring planner with the
default decimation 10, the diagnostic fires at cycles 0 and 10, which are exactly one
decimation period apart, and the error cycle holds the measured position. -/
theorem c2_witness_error_run :
    (sampleStatusOf errorCollab demoState demoInputs ≠ RML_WORKING
      ∧ sampleStatusOf errorCollab demoState demoInputs ≠ RML_FINAL_STATE_REACHED
      ∧ errorEmittedAt errorCollab demoState (fun _ => demoInputs) 0 = true
      ∧ errorEmittedAt errorCollab demoState (fun _ => demoInputs) 10 = true
      ∧ (0 : Nat) < 10)
    ∧ (update errorCollab demoState demoInputs).hwCommands 0
        = some (demoInputs.jointPosition 0)
    ∧ 0 + demoState.decimation ≤ 10
    ∧ (ctorState (fun _ => 1) demoPose demoRmlIn replanFlags ()).decimation = 10 := by
  refine ⟨⟨by decide, by decide, by decide, by decide, by decide⟩, ?_, ?_, ?_⟩
  · exact (c2_error_holds_position_and_rate_limits_diagnostic errorCollab demoState
      demoInputs demoState (fun _ => demoInputs) 0 10 (fun _ => 1) demoPose demoRmlIn
      replanFlags () (by decide) (by decide) (by decide) (by decide) (by decide)).1 0
  · exact (c2_error_holds_position_and_rate_limits_diagnostic errorCollab demoState
      demoInputs demoState (fun _ => demoInputs) 0 10 (fun _ => 1) demoPose demoRmlIn
      replanFlags () (by decide) (by decide) (by decide) (by decide) (by decide)).2.1
  · exact (c2_error_holds_position_and_rate_limits_diagnostic errorCollab demoState
      demoInputs demoState (fun _ => demoInputs) 0 10 (fun _ => 1) demoPose demoRmlIn
      replanFlags () (by decide) (by decide) (by decide) (by decide) (by decide)).2.2

/-- C9: the status consumed by the command-selection switch is the one returned by
the sampling call: the integer returned by the plan-creation call is dead (it is
overwritten before use), so the entire cycle result is unchanged under any change of
the plan-creation return code, and any emitted error diagnostic carries the sampling
status. -/
theorem c9_plan_creation_status_is_dead {n : Nat} {Plan : Type}
    (C Cb : Collaborators n Plan) (s : ControllerState n Plan) (inp : CycleInputs n)
    (hik : C.cartToJnt = Cb.cartToJnt)
    (hsample : C.rmlSampleAt = Cb.rmlSampleAt)
    (hplan : ∀ p rin fl, (C.rmlPosition p rin fl).1 = (Cb.rmlPosition p rin fl).1) :
    update C s inp = update Cb s inp
    ∧ (∀ code, Event.reflexxesError code ∈ (update C s inp).events →
        code = sampleStatusOf C s inp) := by
  have hin : ∀ x : ControllerState n Plan, replanInput C x inp = replanInput Cb x inp := by
    intro x
    unfold replanInput
    rw [hik]
  have h1 : replannedState C s inp = replannedState Cb s inp := by
    by_cases hc : (accelerationStep (newReferenceStep s).1 inp).recomputeTrajectory = true
    · unfold replannedState
      rw [(replanStep_taken C _ inp hc).1, (replanStep_taken Cb _ inp hc).1]
      simp only [hin, hik, hplan]
    · have hc' : (accelerationStep (newReferenceStep s).1 inp).recomputeTrajectory
          = false := by
        simpa using hc
      unfold replannedState replanStep
      simp only [hc', Bool.false_eq_true, if_false]
  have h4 : (sampleStep C (replannedState C s inp) inp).1
      = (sampleStep Cb (replannedState Cb s inp) inp).1 := by
    unfold sampleStep
    rw [h1, hsample]
  have h2 : sampleStatusOf C s inp = sampleStatusOf Cb s inp := by
    unfold sampleStatusOf
    rw [h1, hsample]
  have h5 : preSwitchState C s inp = preSwitchState Cb s inp := by
    unfold preSwitchState
    rw [h4]
  have h6 : (replanStep C (accelerationStep (newReferenceStep s).1 inp) inp).2.2
      = (replanStep Cb (accelerationStep (newReferenceStep s).1 inp) inp).2.2 := by
    by_cases hc : (accelerationStep (newReferenceStep s).1 inp).recomputeTrajectory = true
    · rw [(replanStep_taken C _ inp hc).2, (replanStep_taken Cb _ inp hc).2, hin]
    · have hc' : (accelerationStep (newReferenceStep s).1 inp).recomputeTrajectory
          = false := by
        simpa using hc
      unfold replanStep
      simp only [hc', Bool.false_eq_true, if_false]
  constructor
  · rw [update_decomp C s inp, update_decomp Cb s inp, h5, h2, h6, h4]
  · intro code hmem
    exact ((reflexxesError_mem_update_events C s inp code hmem).2.1)

/-- Closed instance of C9: the cycle result is identical whether plan creation
reports success (0) or the error code -102; only the sampling status matters. -/
theorem c9_witness_plan_error_code_invisible :
    update workingCollab c1State demoInputs = update planErrCollab c1State demoInputs :=
  (c9_plan_creation_status_is_dead workingCollab planErrCollab c1State demoInputs
    rfl rfl (fun _ _ _ => rfl)).1
